import Mathlib

/-!
Shallow embedding of the DartReader repository (src/dart.py and
src/utils/data.py) and verification of the frozen claims about it.

Python exceptions are modelled with `Except` / explicit outcome types,
Python dicts with association lists, and the paging `while True` loop
with a fuel-indexed recursion (`none` = the loop did not finish within
the given fuel).
-/

namespace DartReader

/-- Exceptions raised by the Python code that the claims talk about. -/
inductive PyError where
  | valueError (msg : String)
  deriving Repr, DecidableEq

/-- A parsed JSON response as far as `DartBase.load_json` inspects it:
its `status` field, whether the `list` key is present, and the raw
response text (`json_response.text`) that the ValueError carries. -/
structure JsonResponse where
  status : String
  hasList : Bool
  text : String
  deriving Repr, DecidableEq

/-- `DartBase.load_json` (src/dart.py lines 28-38): raise ValueError with
the raw text when `status != '000'`; raise ValueError when `'list'` is
absent and `list_off` is false; otherwise return the parsed response. -/
def load_json (resp : JsonResponse) (list_off : Bool) : Except PyError JsonResponse :=
  if resp.status ≠ "000" then
    Except.error (PyError.valueError resp.text)
  else if resp.hasList = false ∧ list_off = false then
    Except.error (PyError.valueError "list element is not in response message")
  else
    Except.ok resp

/-- The `corp_code` argument of `FinancialStatement.get_statement`:
either a bare string or a Python list of strings. -/
inductive CorpCode where
  | str (s : String)
  | list (l : List String)
  deriving Repr, DecidableEq

/-- Endpoint selection in `FinancialStatement.get_statement`
(src/dart.py lines 276-280): `if type(corp_code) is list` choose the
multi-entity endpoint, else the single-entity endpoint. -/
def get_statement_api (corp_code : CorpCode) : String :=
  match corp_code with
  | CorpCode.list _ => "fnlttMultiAcnt.json"
  | CorpCode.str _ => "fnlttSinglAcnt.json"

/-- The `corp_code` query parameter sent by `get_statement`: a list is
comma-joined, a bare string is passed through. -/
def get_statement_corp_param (corp_code : CorpCode) : String :=
  match corp_code with
  | CorpCode.list l => String.intercalate "," l
  | CorpCode.str s => s

/-- The query parameters built by `DisclosureInfo.get_list`
(src/dart.py lines 106-117). -/
structure GetListParams where
  crtfc_key : String
  corp_code : String
  bgn_de : String
  end_de : String
  last_reprt_at : String
  page_no : Nat
  page_count : Nat
  deriving Repr, DecidableEq

/-- Parameter construction of `DisclosureInfo.get_list`: `start` and
`end` are optional; a falsy `start` (None or empty) yields `bgn_de = ''`,
a falsy `end` yields `end_de = today`.  `fmt` abstracts
`pd.to_datetime(s).strftime('%Y%m%d')` and `today` abstracts
`datetime.today().strftime('%Y%m%d')`. -/
def get_list_params (api_key corp_code : String) (start «end» : Option String)
    (final : Bool) (fmt : String → String) (today : String) : GetListParams :=
  { crtfc_key := api_key
    corp_code := corp_code
    bgn_de := match start with
      | some s => if s = "" then "" else fmt s
      | none => ""
    end_de := match «end» with
      | some s => if s = "" then today else fmt s
      | none => today
    last_reprt_at := if final then "Y" else "N"
    page_no := 1
    page_count := 100 }

/-- One driver-level statement execution for one row of data
(abstracts the DB driver's behaviour under `cursor.executemany`). -/
def executemany {Row : Type} (execute : Row → Except String Unit) :
    List Row → Except String Unit
  | [] => Except.ok ()
  | r :: rs =>
    match execute r with
    | Except.ok _ => executemany execute rs
    | Except.error e => Except.error e

/-- `DBConnector.insert` (src/utils/data.py lines 28-35): the whole
`executemany`/`commit` body is wrapped in `try ... except Exception`,
which prints the error and returns normally. -/
def DBConnector_insert {Row : Type} (execute : Row → Except String Unit)
    (data : List Row) : Except String Unit :=
  match executemany execute data with
  | Except.ok _ => Except.ok ()
  | Except.error _ => Except.ok ()

/-- `SQLiteConnector.insert` (src/utils/data.py lines 69-78): no
`try`/`except` at all, so a driver exception propagates to the caller. -/
def SQLiteConnector_insert {Row : Type} (execute : Row → Except String Unit)
    (data : List Row) : Except String Unit :=
  executemany execute data

/-- A driver whose statement execution always fails (e.g. a constraint
violation), used to exhibit a propagating SQLite insert failure. -/
def failingExec : List Nat → Except String Unit :=
  fun _ => Except.error "constraint violation"

/-- An XML element as `xml.etree.ElementTree` presents it: a tag, an
optional text, and a list of child elements. -/
inductive XmlElem where
  | mk (tag : String) (text : Option String) (children : List XmlElem)

/-- Tag of an XML element. -/
def XmlElem.tag : XmlElem → String
  | XmlElem.mk t _ _ => t

/-- Text of an XML element (None in Python becomes `none`). -/
def XmlElem.text : XmlElem → Option String
  | XmlElem.mk _ tx _ => tx

/-- Children of an XML element. -/
def XmlElem.children : XmlElem → List XmlElem
  | XmlElem.mk _ _ cs => cs

/-- `tree.find(tag)`: the first immediate child with the given tag, or
None. -/
def find (t : XmlElem) (tag : String) : Option XmlElem :=
  t.children.find? (fun c => c.tag = tag)

/-- `tree.findall(tag)`: all immediate children with the given tag, in
document order. -/
def findall (t : XmlElem) (tag : String) : List XmlElem :=
  t.children.filter (fun c => c.tag = tag)

/-- The observable outcome of `DartBase.check_xml`: return normally,
raise ValueError (carrying the status and message texts), or raise
AttributeError (`None.text`). -/
inductive CheckXmlResult where
  | ok
  | valueError (status message : Option String)
  | attributeError
  deriving Repr, DecidableEq

/-- Whether a `check_xml` outcome is a raised ValueError. -/
def CheckXmlResult.isValueError : CheckXmlResult → Bool
  | CheckXmlResult.valueError _ _ => true
  | _ => false

/-- `DartBase.check_xml` (src/dart.py lines 40-51).  The body is given
as `ET.XML`'s result: `none` for a malformed body (ParseError, caught
and only printed, so the function returns normally) and `some tree`
otherwise.  `tree.find('status').text` on a missing element raises
AttributeError, which the `except ET.ParseError` clause does not catch;
a non-'000' status raises ValueError, likewise uncaught. -/
def check_xml (body : Option XmlElem) : CheckXmlResult :=
  match body with
  | none => CheckXmlResult.ok
  | some tree =>
    match find tree "status" with
    | none => CheckXmlResult.attributeError
    | some st =>
      match find tree "message" with
      | none => CheckXmlResult.attributeError
      | some msg =>
        if st.text ≠ some "000" then CheckXmlResult.valueError st.text msg.text
        else CheckXmlResult.ok

/-- Exception classes that occur in `DartBase.load_xml`'s `try` block. -/
inductive ExcType where
  | unicodeDecodeError
  deriving Repr, DecidableEq

/-- The two `except UnicodeDecodeError` handlers of `load_xml`
(src/dart.py lines 61-64), in source order: the first decodes the bytes
as utf-8, the second returns the raw bytes unchanged. -/
inductive Handler where
  | utf8Fallback
  | rawFallback
  deriving Repr, DecidableEq

/-- Python handler selection: the first `except` clause whose exception
class matches the raised exception handles it. -/
def selectHandler (e : ExcType) (hs : List (ExcType × Handler)) : Option Handler :=
  (hs.find? (fun p => p.1 = e)).map Prod.snd

/-- The handler list of `load_xml`'s `try` statement, in source order. -/
def load_xml_handlers : List (ExcType × Handler) :=
  [(ExcType.unicodeDecodeError, Handler.utf8Fallback),
   (ExcType.unicodeDecodeError, Handler.rawFallback)]

/-- The result of the decode section of `load_xml`: the euc_kr decode
succeeded, the utf-8 fallback handler ran, the raw-bytes handler ran,
or an exception propagated out of the whole statement. -/
inductive DecodeOutcome where
  | primary (s : String)
  | fallback (s : String)
  | raw (b : List Nat)
  | uncaught
  deriving Repr, DecidableEq

/-- Running one handler on the extracted bytes.  A UnicodeDecodeError
raised inside the utf-8 handler is not caught by the later clause of
the same `try`, so it propagates (`uncaught`). -/
def runHandler (decUtf : List Nat → Option String) (b : List Nat) :
    Handler → DecodeOutcome
  | Handler.utf8Fallback =>
    match decUtf b with
    | some s => DecodeOutcome.fallback s
    | none => DecodeOutcome.uncaught
  | Handler.rawFallback => DecodeOutcome.raw b

/-- The decode section of `DartBase.load_xml` (src/dart.py lines 59-64):
try `xml_data.decode('euc_kr')`; on UnicodeDecodeError, Python selects
the first matching handler from the clause list.  `decEuc` and `decUtf`
abstract the two codecs (`none` = the codec raises UnicodeDecodeError). -/
def load_xml_decode (decEuc decUtf : List Nat → Option String) (b : List Nat) :
    DecodeOutcome :=
  match decEuc b with
  | some s => DecodeOutcome.primary s
  | none =>
    match selectHandler ExcType.unicodeDecodeError load_xml_handlers with
    | some h => runHandler decUtf b h
    | none => DecodeOutcome.uncaught

/-- `DartBase.load_xml` (src/dart.py lines 53-66): take the bytes of the
first file in the ZIP archive (given as a list of member byte strings)
and run the decode section on them; an empty archive raises IndexError
(`none`). -/
def load_xml (decEuc decUtf : List Nat → Option String) :
    List (List Nat) → Option DecodeOutcome
  | [] => none
  | first :: _ => some (load_xml_decode decEuc decUtf first)

/-- The keys of a Python dict modelled as an association list. -/
def dictKeys (d : List (String × Option String)) : List String :=
  d.map Prod.fst

/-- `record[k] = v` on a Python dict: an existing key keeps its position
and gets the new value, a new key is appended. -/
def dictInsert (d : List (String × Option String)) (k : String) (v : Option String) :
    List (String × Option String) :=
  if k ∈ dictKeys d then d.map (fun p => if p.1 = k then (k, v) else p)
  else d ++ [(k, v)]

/-- The record built for one `<list>` element in
`convert_xml_to_dataframe`: `record[subchild.tag] = subchild.text` over
its immediate children in order. -/
def buildRecord (child : XmlElem) : List (String × Option String) :=
  child.children.foldl (fun d c => dictInsert d c.tag c.text) []

/-- Appending a column name unless it is already present; this is how
`pd.DataFrame` accumulates its column index from a list of dicts. -/
def insertKey (ks : List String) (k : String) : List String :=
  if k ∈ ks then ks else ks ++ [k]

/-- The column index of `pd.DataFrame(records)`: the union of all
records' keys in first-appearance order. -/
def dfColumns (records : List (List (String × Option String))) : List String :=
  records.foldl (fun cols r => r.foldl (fun cols p => insertKey cols p.1) cols) []

/-- The DataFrame produced by `pd.DataFrame(all_records)`: the records
in order; rows and columns are derived views. -/
structure DataFrame where
  records : List (List (String × Option String))
  deriving Repr

/-- Row count of the DataFrame. -/
def DataFrame.rowCount (df : DataFrame) : Nat :=
  df.records.length

/-- Column set of the DataFrame, in first-appearance order. -/
def DataFrame.columns (df : DataFrame) : List String :=
  dfColumns df.records

/-- `DartBase.convert_xml_to_dataframe` (src/dart.py lines 68-81): one
record per top-level `<list>` element, each mapping the immediate
children's tags to their texts. -/
def convert_xml_to_dataframe (xml : XmlElem) : DataFrame :=
  DataFrame.mk ((findall xml "list").map buildRecord)

/-- The immediate child tags of the first `<list>` element (the column
set the claim predicts). -/
def firstListTags (xml : XmlElem) : List String :=
  match findall xml "list" with
  | [] => []
  | c :: _ => c.children.map XmlElem.tag

/-- A well-formed tree whose status text is '013' but which has no
message element. -/
def statusOnlyTree : XmlElem :=
  XmlElem.mk "result" none [XmlElem.mk "status" (some "013") []]

/-- A well-formed tree with status '000' and a message element. -/
def okTree : XmlElem :=
  XmlElem.mk "result" none
    [XmlElem.mk "status" (some "000") [], XmlElem.mk "message" (some "정상") []]

/-- A decoded XML body whose two `<list>` elements carry different
child tags. -/
def heteroXml : XmlElem :=
  XmlElem.mk "result" none
    [XmlElem.mk "list" none [XmlElem.mk "a" (some "1") []],
     XmlElem.mk "list" none [XmlElem.mk "b" (some "2") []]]

/-- One page of the `list.json` endpoint as `get_list` reads it after
`load_json`: the echoed page number, the reported totals, and the rows
of its `list` array. -/
structure PageResponse (Row : Type) where
  page_no : Nat
  total_count : Nat
  page_count : Nat
  rows : List Row
  deriving Repr, DecidableEq

/-- `math.ceil(a / b)` on natural numbers. -/
def pyCeilDiv (a b : Nat) : Nat :=
  (a + b - 1) / b

/-- The `while True` paging loop of `DisclosureInfo.get_list`
(src/dart.py lines 125-141), fuel-indexed: each iteration issues one
request (`server page`), appends the page's rows, breaks immediately
when `paging` is false, breaks when the response reports
`ceil(total_count / page_count) == page_no`, and otherwise increments
the page cursor.  `none` means the loop did not finish within `fuel`
iterations; the pair counts the requests issued. -/
def get_list_loop {Row : Type} (server : Nat → PageResponse Row) (paging : Bool) :
    Nat → Nat → List Row → Nat → Option (List Row × Nat)
  | 0, _, _, _ => none
  | fuel + 1, page, acc, reqs =>
    if paging = false then
      some (acc ++ (server page).rows, reqs + 1)
    else if pyCeilDiv (server page).total_count (server page).page_count =
        (server page).page_no then
      some (acc ++ (server page).rows, reqs + 1)
    else
      get_list_loop server paging fuel (page + 1) (acc ++ (server page).rows) (reqs + 1)

/-- `DisclosureInfo.get_list`'s paging loop started as the code starts
it: page cursor 1, empty accumulated table, no requests issued yet. -/
def get_list {Row : Type} (server : Nat → PageResponse Row) (paging : Bool)
    (fuel : Nat) : Option (List Row × Nat) :=
  get_list_loop server paging fuel 1 [] 0

/-- The concatenation of the per-page tables of pages `p, p+1, ...,
p+n-1`, in page order. -/
def pagesRows {Row : Type} (server : Nat → PageResponse Row) : Nat → Nat → List Row
  | _, 0 => []
  | p, n + 1 => (server p).rows ++ pagesRows server (p + 1) n

/-- The sum of the per-page row counts of pages `p, ..., p+n-1`. -/
def pagesRowCount {Row : Type} (server : Nat → PageResponse Row) : Nat → Nat → Nat
  | _, 0 => 0
  | p, n + 1 => (server p).rows.length + pagesRowCount server (p + 1) n

/-- A concrete three-page server (250 rows reported, 100 per page). -/
def demoServerA : Nat → PageResponse Nat :=
  fun k => PageResponse.mk k 250 100 [10 * k, 10 * k + 1]

/-- A concrete two-page server (150 rows reported, 100 per page). -/
def demoServerB : Nat → PageResponse Nat :=
  fun k => PageResponse.mk k 150 100 [k]

/-- A server whose every response reports an empty result set. -/
def zeroServer : Nat → PageResponse Nat :=
  fun k => PageResponse.mk k 0 100 []

/-- Membership in `insertKey`. -/
theorem mem_insertKey (ks : List String) (k a : String) :
    a ∈ insertKey ks k ↔ a ∈ ks ∨ a = k := by
  unfold insertKey
  by_cases h : k ∈ ks
  · simp only [h, if_pos]
    constructor
    · exact Or.inl
    · rintro (ha | rfl)
      · exact ha
      · exact h
  · simp [h]

/-- Overwriting a value in place keeps the first component of every
pair. -/
theorem fst_update (k : String) (v : Option String) (p : String × Option String) :
    (if p.1 = k then (k, v) else p).1 = p.1 := by
  by_cases hp : p.1 = k
  · simp [hp]
  · simp [hp]

/-- The in-place value overwrite of `dictInsert` keeps the key list. -/
theorem dictKeys_map_update (d : List (String × Option String)) (k : String)
    (v : Option String) :
    dictKeys (d.map (fun p => if p.1 = k then (k, v) else p)) = dictKeys d := by
  induction d with
  | nil => rfl
  | cons p d ih =>
    simp only [dictKeys, List.map_cons] at ih ⊢
    rw [fst_update k v p]
    exact congrArg (fun l => p.1 :: l) ih

/-- dictInsert does not change the key list when the key is present. -/
theorem dictKeys_dictInsert_mem (d : List (String × Option String))
    (k : String) (v : Option String) (h : k ∈ dictKeys d) :
    dictKeys (dictInsert d k v) = dictKeys d := by
  unfold dictInsert
  rw [if_pos h]
  exact dictKeys_map_update d k v

/-- Membership in the keys after a dict insertion. -/
theorem mem_dictKeys_dictInsert (d : List (String × Option String))
    (k : String) (v : Option String) (a : String) :
    a ∈ dictKeys (dictInsert d k v) ↔ a ∈ dictKeys d ∨ a = k := by
  by_cases h : k ∈ dictKeys d
  · rw [dictKeys_dictInsert_mem d k v h]
    constructor
    · exact Or.inl
    · rintro (ha | rfl)
      · exact ha
      · exact h
  · unfold dictInsert
    rw [if_neg h]
    simp [dictKeys]

/-- The keys of the record built for a `<list>` element are exactly its
child tags (as a set). -/
theorem mem_dictKeys_buildRecord (child : XmlElem) (a : String) :
    a ∈ dictKeys (buildRecord child) ↔ a ∈ child.children.map XmlElem.tag := by
  unfold buildRecord
  have main : ∀ (cs : List XmlElem) (d : List (String × Option String)),
      a ∈ dictKeys (cs.foldl (fun d c => dictInsert d c.tag c.text) d) ↔
        a ∈ dictKeys d ∨ a ∈ cs.map XmlElem.tag := by
    intro cs
    induction cs with
    | nil => intro d; simp
    | cons c cs ih =>
      intro d
      rw [List.foldl_cons, ih, mem_dictKeys_dictInsert]
      simp only [List.map_cons, List.mem_cons]
      tauto
  rw [main]
  simp [dictKeys]

/-- Membership in the accumulated column index. -/
theorem mem_dfColumns (records : List (List (String × Option String))) (a : String) :
    a ∈ dfColumns records ↔ ∃ r ∈ records, a ∈ dictKeys r := by
  unfold dfColumns
  have inner : ∀ (r : List (String × Option String)) (cols : List String),
      a ∈ r.foldl (fun cols p => insertKey cols p.1) cols ↔
        a ∈ cols ∨ a ∈ dictKeys r := by
    intro r
    induction r with
    | nil => intro cols; simp [dictKeys]
    | cons p r ih =>
      intro cols
      rw [List.foldl_cons, ih, mem_insertKey]
      simp only [dictKeys, List.map_cons, List.mem_cons]
      tauto
  have main : ∀ (rs : List (List (String × Option String))) (cols : List String),
      a ∈ rs.foldl (fun cols r => r.foldl (fun cols p => insertKey cols p.1) cols) cols ↔
        a ∈ cols ∨ ∃ r ∈ rs, a ∈ dictKeys r := by
    intro rs
    induction rs with
    | nil => intro cols; simp
    | cons r rs ih =>
      intro cols
      rw [List.foldl_cons, ih, inner]
      simp only [List.mem_cons]
      constructor
      · rintro ((hc | hr) | ⟨r', hr', ha⟩)
        · exact Or.inl hc
        · exact Or.inr ⟨r, Or.inl rfl, hr⟩
        · exact Or.inr ⟨r', Or.inr hr', ha⟩
      · rintro (hc | ⟨r', hr' | hr', ha⟩)
        · exact Or.inl (Or.inl hc)
        · exact Or.inl (Or.inr (hr' ▸ ha))
        · exact Or.inr ⟨r', hr', ha⟩
  rw [main]
  simp

/-- C1: load_json raises ValueError carrying the raw text on a
non-'000' status, raises ValueError when 'list' is absent and list_off
is false, and otherwise returns the parsed response unchanged. -/
theorem C1_load_json_validation (resp : JsonResponse) (list_off : Bool) :
    (resp.status ≠ "000" →
      load_json resp list_off = Except.error (PyError.valueError resp.text)) ∧
    (resp.status = "000" → resp.hasList = false → list_off = false →
      load_json resp list_off =
        Except.error (PyError.valueError "list element is not in response message")) ∧
    (resp.status = "000" → (resp.hasList = true ∨ list_off = true) →
      load_json resp list_off = Except.ok resp) := by
  refine ⟨fun h => ?_, fun h hl ho => ?_, fun h hok => ?_⟩
  · simp [load_json, h]
  · simp [load_json, h, hl, ho]
  · rcases hok with hok | hok <;> simp [load_json, h, hok]

/-- Witness for C1 at a concrete response. -/
theorem C1_load_json_validation_witness :
    load_json ⟨"013", false, "raw body"⟩ false =
      Except.error (PyError.valueError "raw body") :=
  (C1_load_json_validation ⟨"013", false, "raw body"⟩ false).1 (by decide)

/-- C3 counterexample: a list holding a single identifier is routed to
the multi-entity endpoint, not the single-entity one as the claim
states. -/
theorem C3_single_element_list_counterexample :
    get_statement_api (CorpCode.list ["00126380"]) = "fnlttMultiAcnt.json" ∧
    get_statement_api (CorpCode.list ["00126380"]) ≠ "fnlttSinglAcnt.json" := by
  constructor
  · rfl
  · decide

/-- C3 amended: get_statement dispatches on the Python type of
`corp_code`: every list (of any length, including one) goes to the
multi-entity endpoint with the identifiers comma-joined, and a bare
string goes to the single-entity endpoint. -/
theorem C3_get_statement_dispatch :
    (∀ l : List String,
      get_statement_api (CorpCode.list l) = "fnlttMultiAcnt.json" ∧
      get_statement_corp_param (CorpCode.list l) = String.intercalate "," l) ∧
    (∀ s : String,
      get_statement_api (CorpCode.str s) = "fnlttSinglAcnt.json" ∧
      get_statement_corp_param (CorpCode.str s) = s) :=
  ⟨fun _ => ⟨rfl, rfl⟩, fun _ => ⟨rfl, rfl⟩⟩

/-- C7: when `start` is not given, `get_list` sends `bgn_de = ''`, not
the documented epoch `'19990101'`; when `end` is not given, `end_de`
defaults to today's date. -/
theorem C7_get_list_date_defaults (api_key corp_code : String)
    (fmt : String → String) (today : String) (final : Bool) :
    (get_list_params api_key corp_code none none final fmt today).bgn_de = "" ∧
    (get_list_params api_key corp_code none none final fmt today).end_de = today ∧
    ("" : String) ≠ "19990101" := by
  refine ⟨rfl, rfl, by decide⟩

/-- C8 counterexample: a failing driver statement makes
`SQLiteConnector.insert` raise to the caller, so the claim that both
variants swallow insert failures is false. -/
theorem C8_sqlite_insert_propagates_counterexample :
    SQLiteConnector_insert failingExec [[1]] = Except.error "constraint violation" ∧
    SQLiteConnector_insert failingExec [[1]] ≠ Except.ok () := by
  constructor
  · rfl
  · simp [SQLiteConnector_insert, executemany, failingExec]

/-- C8 amended: `DBConnector.insert` wraps the batch execution in
`try`/`except` and always returns normally, while `SQLiteConnector.insert`
runs the same driver-level batch execution with no handler, so any
driver failure propagates to the caller. -/
theorem C8_insert_error_handling {Row : Type} (execute : Row → Except String Unit)
    (data : List Row) :
    DBConnector_insert execute data = Except.ok () ∧
    SQLiteConnector_insert execute data = executemany execute data ∧
    (∀ e, executemany execute data = Except.error e →
      SQLiteConnector_insert execute data = Except.error e) := by
  refine ⟨?_, rfl, fun e he => he⟩
  unfold DBConnector_insert
  cases executemany execute data <;> rfl

/-- Witness for C8 at a concrete failing driver. -/
theorem C8_insert_error_handling_witness :
    SQLiteConnector_insert failingExec ([[2]] : List (List Nat)) =
      Except.error "constraint violation" :=
  (C8_insert_error_handling failingExec [[2]]).2.2 "constraint violation" rfl

/-- C5: the first ZIP member's bytes are decoded with euc_kr, falling
back to utf-8 when euc_kr raises UnicodeDecodeError; the duplicated
second `except UnicodeDecodeError` handler (returning the raw bytes) is
never selected, since Python picks the first matching clause, so no
input ever produces the raw-bytes outcome. -/
theorem C5_load_xml_decode_chain (decEuc decUtf : List Nat → Option String)
    (first : List Nat) (rest : List (List Nat)) :
    (∀ s, decEuc first = some s →
      load_xml decEuc decUtf (first :: rest) = some (DecodeOutcome.primary s)) ∧
    (decEuc first = none → ∀ s, decUtf first = some s →
      load_xml decEuc decUtf (first :: rest) = some (DecodeOutcome.fallback s)) ∧
    (∀ zip b, load_xml decEuc decUtf zip ≠ some (DecodeOutcome.raw b)) ∧
    selectHandler ExcType.unicodeDecodeError load_xml_handlers = some Handler.utf8Fallback := by
  refine ⟨fun s hs => ?_, fun he s hu => ?_, fun zip b => ?_, rfl⟩
  · simp [load_xml, load_xml_decode, hs]
  · simp [load_xml, load_xml_decode, he, selectHandler, load_xml_handlers, runHandler, hu]
  · match zip with
    | [] => simp [load_xml]
    | f :: r =>
      simp only [load_xml, load_xml_decode]
      cases hf : decEuc f with
      | some s => simp
      | none =>
        simp only [selectHandler, load_xml_handlers, List.find?]
        cases hu : decUtf f <;> simp [runHandler, hu]

/-- Witness for C5: with a euc_kr codec that fails and a utf-8 codec
that succeeds, the fallback branch produces the utf-8 text. -/
theorem C5_load_xml_decode_chain_witness :
    load_xml (fun _ => none) (fun _ => some "text") [[255]] =
      some (DecodeOutcome.fallback "text") :=
  (C5_load_xml_decode_chain (fun _ => none) (fun _ => some "text") [255] []).2.1
    rfl "text" rfl

/-- C6 counterexample: a well-formed XML body whose status text is
'013' (not '000') but which lacks a message element makes check_xml
raise AttributeError, not the claimed ValueError. -/
theorem C6_missing_message_counterexample :
    (find statusOnlyTree "status").map XmlElem.text = some (some "013") ∧
    some "013" ≠ some "000" ∧
    check_xml (some statusOnlyTree) = CheckXmlResult.attributeError ∧
    (check_xml (some statusOnlyTree)).isValueError = false := by
  refine ⟨rfl, by decide, rfl, rfl⟩

/-- C6 amended: for a well-formed XML body that contains both a status
and a message element, check_xml raises ValueError carrying the status
and message when the status text is not '000' and returns normally when
it is '000'; a malformed body never raises (the ParseError is caught
and only printed). -/
theorem C6_check_xml_validation (tree st msg : XmlElem)
    (hs : find tree "status" = some st) (hm : find tree "message" = some msg) :
    (st.text ≠ some "000" →
      check_xml (some tree) = CheckXmlResult.valueError st.text msg.text) ∧
    (st.text = some "000" → check_xml (some tree) = CheckXmlResult.ok) ∧
    check_xml none = CheckXmlResult.ok := by
  refine ⟨fun hne => ?_, fun heq => ?_, rfl⟩
  · simp [check_xml, hs, hm, hne]
  · simp [check_xml, hs, hm, heq]

/-- Witness for C6 at a concrete well-formed '000' response. -/
theorem C6_check_xml_validation_witness :
    check_xml (some okTree) = CheckXmlResult.ok :=
  (C6_check_xml_validation okTree (XmlElem.mk "status" (some "000") [])
    (XmlElem.mk "message" (some "정상") []) rfl rfl).2.1 rfl

/-- C10: a well-formed XML body with no status child makes check_xml
raise AttributeError (`tree.find('status')` is None and `.text` is
taken on it), which the `except ET.ParseError` clause does not catch. -/
theorem C10_missing_status_attribute_error (tree : XmlElem)
    (h : find tree "status" = none) :
    check_xml (some tree) = CheckXmlResult.attributeError ∧
    (check_xml (some tree)).isValueError = false := by
  constructor
  · simp [check_xml, h]
  · simp [check_xml, h, CheckXmlResult.isValueError]

/-- Witness for C10 at a concrete status-less tree. -/
theorem C10_missing_status_attribute_error_witness :
    check_xml (some (XmlElem.mk "result" none [XmlElem.mk "message" (some "m") []])) =
      CheckXmlResult.attributeError :=
  (C10_missing_status_attribute_error
    (XmlElem.mk "result" none [XmlElem.mk "message" (some "m") []]) rfl).1

/-- C4 counterexample: when a later `<list>` element carries a tag the
first one lacks, the table's column set is strictly larger than the
first element's child-tag set, refuting the claimed equality. -/
theorem C4_first_tags_counterexample :
    "b" ∈ (convert_xml_to_dataframe heteroXml).columns ∧
    "b" ∉ firstListTags heteroXml ∧
    (convert_xml_to_dataframe heteroXml).rowCount = 2 := by
  refine ⟨by decide, by decide, rfl⟩

/-- C4 amended: the flattening builds one record per top-level `<list>`
element (each mapping the immediate children's tags to their texts), so
the row count equals the number of `<list>` elements; the column set is
the union of the child-tag sets of all `<list>` elements (in
first-appearance order), which coincides with the first element's
child-tag set exactly when no later element introduces a new tag. -/
theorem C4_flatten_shape (xml : XmlElem) :
    (convert_xml_to_dataframe xml).rowCount = (findall xml "list").length ∧
    (∀ c, c ∈ (convert_xml_to_dataframe xml).columns ↔
      ∃ e ∈ findall xml "list", c ∈ e.children.map XmlElem.tag) := by
  constructor
  · simp [convert_xml_to_dataframe, DataFrame.rowCount]
  · intro c
    simp only [convert_xml_to_dataframe, DataFrame.columns, mem_dfColumns]
    constructor
    · rintro ⟨r, hr, ha⟩
      obtain ⟨e, he, rfl⟩ := List.mem_map.mp hr
      exact ⟨e, he, (mem_dictKeys_buildRecord e c).1 ha⟩
    · rintro ⟨e, he, ha⟩
      exact ⟨buildRecord e, List.mem_map.mpr ⟨e, he, rfl⟩,
        (mem_dictKeys_buildRecord e c).2 ha⟩

/-- Witness for C4 at a concrete decoded body. -/
theorem C4_flatten_shape_witness :
    (convert_xml_to_dataframe heteroXml).rowCount = (findall heteroXml "list").length :=
  (C4_flatten_shape heteroXml).1

/-- Ceiling division of zero is zero. -/
theorem pyCeilDiv_zero (b : Nat) : pyCeilDiv 0 b = 0 := by
  unfold pyCeilDiv
  cases b with
  | zero => rfl
  | succ b => exact Nat.div_eq_of_lt (by omega)

/-- The concatenated rows of a page range have as many rows as the
per-page row counts sum to. -/
theorem pagesRows_length {Row : Type} (server : Nat → PageResponse Row) :
    ∀ (n p : Nat), (pagesRows server p n).length = pagesRowCount server p n := by
  intro n
  induction n with
  | zero => intro p; rfl
  | succ n ih => intro p; simp [pagesRows, pagesRowCount, ih]

/-- Running the paging loop from page `p` with `d` more pages to go
(`p + d = N`, where every response reports `N` total pages and echoes
the requested page number) visits pages `p, ..., p + d` in order and
issues one request per page. -/
theorem get_list_loop_run {Row : Type} (server : Nat → PageResponse Row) (N : Nat)
    (echo : ∀ k, (server k).page_no = k)
    (consistent : ∀ k, pyCeilDiv (server k).total_count (server k).page_count = N) :
    ∀ (d p : Nat) (acc : List Row) (reqs fuel : Nat), p + d = N → d < fuel →
      get_list_loop server true fuel p acc reqs =
        some (acc ++ pagesRows server p (d + 1), reqs + (d + 1)) := by
  intro d
  induction d with
  | zero =>
    intro p acc reqs fuel hpN hfuel
    cases fuel with
    | zero => exact absurd hfuel (by omega)
    | succ fuel =>
      have hc : pyCeilDiv (server p).total_count (server p).page_count =
          (server p).page_no := by
        rw [consistent p, echo p]
        omega
      simp only [get_list_loop]
      rw [if_neg (by simp), if_pos hc]
      simp [pagesRows]
  | succ d ih =>
    intro p acc reqs fuel hpN hfuel
    cases fuel with
    | zero => exact absurd hfuel (by omega)
    | succ fuel =>
      have hc : pyCeilDiv (server p).total_count (server p).page_count ≠
          (server p).page_no := by
        rw [consistent p, echo p]
        omega
      simp only [get_list_loop]
      rw [if_neg (by simp), if_neg hc]
      rw [ih (p + 1) (acc ++ (server p).rows) (reqs + 1) fuel (by omega) (by omega)]
      simp only [pagesRows]
      simp [List.append_assoc]
      omega

/-- When every response reports a zero total count (and echoes the
requested page number), the break condition compares 0 with a page
number that is at least 1, so the loop never breaks. -/
theorem get_list_loop_zero_total {Row : Type} (server : Nat → PageResponse Row)
    (echo : ∀ k, (server k).page_no = k)
    (hzero : ∀ k, (server k).total_count = 0) :
    ∀ (fuel p : Nat) (acc : List Row) (reqs : Nat), 1 ≤ p →
      get_list_loop server true fuel p acc reqs = none := by
  intro fuel
  induction fuel with
  | zero => intro p acc reqs hp; rfl
  | succ fuel ih =>
    intro p acc reqs hp
    have hc : pyCeilDiv (server p).total_count (server p).page_count ≠
        (server p).page_no := by
      rw [hzero p, echo p, pyCeilDiv_zero]
      omega
    simp only [get_list_loop]
    rw [if_neg (by simp), if_neg hc]
    exact ih (p + 1) _ _ (by omega)

/-- C2: with paging=True the cursor starts at 1 and increments by 1
until the response's page_no equals ceil(total_count/page_count); the
returned table is the concatenation of the per-page tables in page
order (so its row count is the sum of the per-page row counts and row
order is page-then-within-page order); with paging=False only the
first page's table is returned. -/
theorem C2_get_list_paging {Row : Type} (server : Nat → PageResponse Row)
    (N fuel : Nat)
    (echo : ∀ k, (server k).page_no = k)
    (consistent : ∀ k, pyCeilDiv (server k).total_count (server k).page_count = N)
    (hN : 1 ≤ N) (hfuel : N ≤ fuel) :
    get_list server true fuel = some (pagesRows server 1 N, N) ∧
    (pagesRows server 1 N).length = pagesRowCount server 1 N ∧
    (∀ fuel2, 1 ≤ fuel2 → get_list server false fuel2 = some ((server 1).rows, 1)) := by
  have hN1 : N - 1 + 1 = N := by omega
  refine ⟨?_, pagesRows_length server N 1, ?_⟩
  · unfold get_list
    rw [get_list_loop_run server N echo consistent (N - 1) 1 [] 0 fuel (by omega) (by omega)]
    simp [hN1]
  · intro fuel2 hf2
    cases fuel2 with
    | zero => exact absurd hf2 (by omega)
    | succ fuel2 =>
      unfold get_list
      simp [get_list_loop]

/-- Witness for C2 on a concrete three-page server. -/
theorem C2_get_list_paging_witness :
    get_list demoServerA true 5 = some (pagesRows demoServerA 1 3, 3) :=
  (C2_get_list_paging demoServerA 3 5 (fun _ => rfl)
    (fun _ => by norm_num [demoServerA, pyCeilDiv]) (by decide) (by decide)).1

/-- C9: with paging=True the loop terminates after exactly
ceil(total_count/page_count) requests when every response consistently
reports at least one result row (total_count >= 1, page_count >= 1) and
echoes the page number; when every response reports total_count = 0 the
break condition compares 0 with a page number >= 1 and the loop never
terminates, whatever fuel it is given. -/
theorem C9_paging_termination :
    (∀ (Row : Type) (server : Nat → PageResponse Row) (tc pc fuel : Nat),
      (∀ k, (server k).page_no = k) →
      (∀ k, (server k).total_count = tc) →
      (∀ k, (server k).page_count = pc) →
      1 ≤ tc → 1 ≤ pc → pyCeilDiv tc pc ≤ fuel →
      (get_list server true fuel).map Prod.snd = some (pyCeilDiv tc pc)) ∧
    (∀ (Row : Type) (server : Nat → PageResponse Row),
      (∀ k, (server k).page_no = k) →
      (∀ k, (server k).total_count = 0) →
      (∀ k, 1 ≤ (server k).page_count) →
      ∀ fuel, get_list server true fuel = none) := by
  constructor
  · intro Row server tc pc fuel echo htc hpc h1tc h1pc hfuel
    have consistent : ∀ k,
        pyCeilDiv (server k).total_count (server k).page_count = pyCeilDiv tc pc := by
      intro k
      rw [htc k, hpc k]
    have hN : 1 ≤ pyCeilDiv tc pc := by
      unfold pyCeilDiv
      rw [Nat.le_div_iff_mul_le (by omega)]
      omega
    have hN1 : pyCeilDiv tc pc - 1 + 1 = pyCeilDiv tc pc := by omega
    unfold get_list
    rw [get_list_loop_run server (pyCeilDiv tc pc) echo consistent
      (pyCeilDiv tc pc - 1) 1 [] 0 fuel (by omega) (by omega)]
    simp [hN1]
  · intro Row server echo hzero _ fuel
    exact get_list_loop_zero_total server echo hzero fuel 1 [] 0 (by omega)

/-- Witness for C9: the two-page server terminates in exactly 2
requests; the all-empty server exhausts any amount of fuel. -/
theorem C9_paging_termination_witness :
    (get_list demoServerB true 2).map Prod.snd = some (pyCeilDiv 150 100) ∧
    get_list zeroServer true 37 = none :=
  ⟨C9_paging_termination.1 Nat demoServerB 150 100 2 (fun _ => rfl) (fun _ => rfl)
    (fun _ => rfl) (by decide) (by decide) (by decide),
   C9_paging_termination.2 Nat zeroServer (fun _ => rfl) (fun _ => rfl)
    (fun _ => by norm_num [zeroServer]) 37⟩

end DartReader
